import Mathlib

/-!
Shallow embedding of `src/ssh_server_manager.py` (the `Tools` class and its
module-level pending-action table), for checking the repository's
specification.

The remote side (SSH transport, SFTP, the commands' outputs) is modelled by
an environment `Env`: each way the Python code can observe the outside world
(an exception from `_get_ssh_client`, the stdout/stderr of
`client.exec_command`, an exception from an SFTP write or read, the hex
suffix drawn from `uuid.uuid4()`) is a field of `Env`.  Every helper of the
source catches all exceptions and turns them into strings, so the embedded
functions are total and return the same strings.  Remote side effects are
recorded in an explicit trace (`List RemoteOp`) so that "command X was never
issued" is a statement about the trace.

Python's `str.strip` is modelled by `pyStrip` (dropping ASCII whitespace on
both ends), `in` (substring test) by `strContains`, `os.path.basename` by
`basename`, and the module-level dict `_pending_actions` by a function
`String → Option PendingAction` (a Python dict holds each key at most once,
which the function model makes intrinsic; insertion and `pop` become
pointwise updates).
-/

namespace SSHServerManager

/-- One observable operation sent towards the remote host: a command handed to
`client.exec_command`, or a file written through SFTP. -/
inductive RemoteOp where
  | exec (command : String)
  | sftpWrite (path : String) (content : String)
  deriving DecidableEq, Repr

/-- Outcome of `client.exec_command` for one command: the raw stdout/stderr
texts, or an exception (message as Python would render it). -/
inductive ExecOutcome where
  | ok (stdoutText stderrText : String)
  | exn (msg : String)
  deriving DecidableEq, Repr

/-- Outcome of an SFTP read of one path: the file's content, or an exception. -/
inductive ReadOutcome where
  | ok (content : String)
  | exn (msg : String)
  deriving DecidableEq, Repr

/-- The outside world as the Python code can observe it.  `connectExn`: if
`some m`, `_get_ssh_client` raises an exception whose text is
`"Failed to establish SSH connection: " ++ m`; `exec c`: what
`client.exec_command c` yields; `sftpWrite p c`: `some m` if writing content
`c` to path `p` over SFTP raises with message `m`; `sftpRead p`: what reading
path `p` yields; `uuidHex`: the `uuid.uuid4().hex` drawn for this call's
temporary-file suffix. -/
structure Env where
  connectExn : Option String
  exec : String → ExecOutcome
  sftpWrite : String → String → Option String
  sftpRead : String → ReadOutcome
  uuidHex : String

/-- One entry of the module-level `_pending_actions` dict, as
`propose_nginx_config_update` stores it: the keys "type", "file_path",
"content". -/
structure PendingAction where
  type : String
  file_path : String
  content : String
  deriving DecidableEq, Repr

/-- The module-level dict `_pending_actions`, as the key-to-entry map it
denotes. -/
def Table : Type := String → Option PendingAction

/-- The empty pending-action table. -/
def Table.empty : Table := fun _ => none

/-- Result of one tool invocation: the string the Python method returns, the
pending-action table afterwards, and the remote operations attempted. -/
structure OpResult where
  output : String
  table : Table
  trace : List RemoteOp

/-- Python `str.strip()`: the string with whitespace removed from both ends. -/
def pyStrip (s : String) : String :=
  ⟨((s.data.dropWhile Char.isWhitespace).reverse.dropWhile Char.isWhitespace).reverse⟩

/-- Python `pat in s`: substring test, via list infix on the characters. -/
def strContains (s pat : String) : Bool := decide (pat.data <:+: s.data)

/-- Helper for `basename`: scan the characters, restarting the accumulator at
every '/'; the accumulator holds the current component reversed. -/
def basenameAux : List Char → List Char → List Char
  | [], acc => acc.reverse
  | c :: cs, acc => if c = '/' then basenameAux cs [] else basenameAux cs (c :: acc)

/-- Python `os.path.basename`: everything after the last '/'. -/
def basename (s : String) : String := ⟨basenameAux s.data []⟩

/-- The command `_run_remote_command` actually executes: prefixed by
`cd {working_dir} && ` when a working directory is given. -/
def full_command (working_dir : Option String) (command : String) : String :=
  match working_dir with
  | some wd => "cd " ++ wd ++ " && " ++ command
  | none => command

/-- `Tools._run_remote_command`: run a command remotely; stderr output that
does not mention "sudo" marks failure; all exceptions become strings.
Returns the string result and the trace of attempted remote operations.
When the connection itself fails, the error string names the original
command (the `cd` prefixing in the source happens after connecting). -/
def run_remote_command (env : Env) (command : String) (working_dir : Option String) :
    String × List RemoteOp :=
  match env.connectExn with
  | some e =>
      ("Failed to run command '" ++ command ++ "': Failed to establish SSH connection: " ++ e,
       [])
  | none =>
      let cmd := full_command working_dir command
      match env.exec cmd with
      | .exn e => ("Failed to run command '" ++ cmd ++ "': " ++ e, [.exec cmd])
      | .ok stdoutText stderrText =>
          let output := pyStrip stdoutText
          let error := pyStrip stderrText
          if error != "" && !(strContains error "sudo") then
            ("Error executing command:\nSTDOUT:\n" ++ output ++ "\nSTDERR:\n" ++ error,
             [.exec cmd])
          else
            (if output != "" then output else error, [.exec cmd])

/-- `Tools._read_remote_file_content`: read a remote file over SFTP; any
exception becomes a descriptive string. -/
def read_remote_file_content (env : Env) (remote_path : String) : String :=
  match env.connectExn with
  | some e => "Error reading file '" ++ remote_path ++ "': Failed to establish SSH connection: " ++ e
  | none =>
      match env.sftpRead remote_path with
      | .ok content => content
      | .exn e => "Error reading file '" ++ remote_path ++ "': " ++ e

/-- The temporary path `_write_remote_file_content` writes to:
`/tmp/{basename}.tmp_{uuid4().hex}`. -/
def temp_remote_path (env : Env) (remote_path : String) : String :=
  "/tmp/" ++ basename remote_path ++ ".tmp_" ++ env.uuidHex

/-- The elevated move command of `_write_remote_file_content`. -/
def move_command (env : Env) (remote_path : String) : String :=
  "sudo mv " ++ temp_remote_path env remote_path ++ " " ++ remote_path

/-- The best-effort cleanup command of `_write_remote_file_content`. -/
def cleanup_command (env : Env) (remote_path : String) : String :=
  "rm " ++ temp_remote_path env remote_path

/-- `Tools._write_remote_file_content`: write content to a temporary path in
/tmp over SFTP, then `sudo mv` it onto the target; on a failed move, run a
best-effort `rm` of the temporary file (its outcome is discarded).  Any
exception becomes a descriptive string. -/
def write_remote_file_content (env : Env) (remote_path : String) (content : String) :
    String × List RemoteOp :=
  match env.connectExn with
  | some e =>
      ("Error writing file " ++ remote_path ++ ": Failed to establish SSH connection: " ++ e, [])
  | none =>
      let tmp := temp_remote_path env remote_path
      match env.sftpWrite tmp content with
      | some e =>
          ("Error writing file " ++ remote_path ++ ": " ++ e, [.sftpWrite tmp content])
      | none =>
          let mv := run_remote_command env (move_command env remote_path) none
          if strContains mv.1 "Error" then
            let rm := run_remote_command env (cleanup_command env remote_path) none
            ("Error moving temporary file: " ++ mv.1,
             RemoteOp.sftpWrite tmp content :: mv.2 ++ rm.2)
          else
            ("Successfully updated " ++ remote_path ++ ".",
             RemoteOp.sftpWrite tmp content :: mv.2)

/-- `Tools.propose_nginx_config_update`: store a pending change under a fresh
id (the `str(uuid.uuid4())` drawn by this call is the `action_id` argument)
and return the confirmation string.  No remote operation is attempted; the
Python default for `config_path` is "/opt/iot-stack/volumes/nginx/conf/app.conf". -/
def propose_nginx_config_update (table : Table) (action_id : String)
    (proposed_content : String) (config_path : String) : OpResult :=
  { output := "Proposed Nginx config update stored. To apply, say: 'Apply change " ++
      action_id ++ "'."
    table := fun k =>
      if k = action_id then
        some { type := "nginx_config_update", file_path := config_path,
               content := proposed_content }
      else table k
    trace := [] }

/-- The validation command `apply_pending_change` runs after a committed
nginx update. -/
def validation_command (nginx_container_name : String) : String :=
  "sudo docker exec " ++ nginx_container_name ++ " nginx -t"

/-- The reload command `apply_pending_change` runs after successful
validation. -/
def reload_command (nginx_container_name : String) : String :=
  "sudo docker exec " ++ nginx_container_name ++ " nginx -s reload"

/-- `Tools.apply_pending_change`: pop the pending change (reporting not-found
when absent), then for an nginx update run commit (remote file replacement),
validation (`nginx -t`, judged by the success phrases) and reload, returning
at the first failed stage; any other stored type is reported unhandled with
no remote operation.  The Python default for `nginx_container_name` is
"nginx". -/
def apply_pending_change (env : Env) (table : Table) (action_id : String)
    (nginx_container_name : String) : OpResult :=
  match table action_id with
  | none =>
      { output := "Error: No pending change found with ID '" ++ action_id ++ "'."
        table := table
        trace := [] }
  | some action_details =>
      let table' : Table := fun k => if k = action_id then none else table k
      if action_details.type = "nginx_config_update" then
        let commit := write_remote_file_content env action_details.file_path
          action_details.content
        if strContains commit.1 "Successfully updated" then
          let validation := run_remote_command env
            (validation_command nginx_container_name) none
          if !(strContains validation.1 "syntax is ok") &&
              !(strContains validation.1 "test is successful") then
            { output := "Nginx config updated, but validation failed: " ++ validation.1 ++ "."
              table := table'
              trace := commit.2 ++ validation.2 }
          else
            let reload := run_remote_command env (reload_command nginx_container_name) none
            if strContains reload.1 "Error" then
              { output := "Nginx config updated and validated, but reload failed: " ++
                  reload.1 ++ "."
                table := table'
                trace := commit.2 ++ validation.2 ++ reload.2 }
            else
              { output := "Successfully applied update to '" ++ action_details.file_path ++
                  "', validated, and Nginx reloaded."
                table := table'
                trace := commit.2 ++ validation.2 ++ reload.2 }
        else
          { output := "Failed to apply Nginx config update: " ++ commit.1
            table := table'
            trace := commit.2 }
      else
        { output := "Unknown or unhandled action type '" ++ action_details.type ++ "'."
          table := table'
          trace := [] }

/-- A benign concrete environment: every command yields empty output, SFTP
never fails, the drawn uuid hex is "aa". -/
def envNull : Env :=
  { connectExn := none, exec := fun _ => .ok "" "", sftpWrite := fun _ _ => none,
    sftpRead := fun _ => .ok "", uuidHex := "aa" }

/-- A concrete environment whose every command yields non-empty stdout and
stderr not mentioning "sudo". -/
def envErr : Env :=
  { connectExn := none, exec := fun _ => .ok "some output" "boom failure",
    sftpWrite := fun _ _ => none, sftpRead := fun _ => .ok "", uuidHex := "aa" }

/-- A concrete environment in which the nginx syntax check reports an error
and everything else succeeds silently. -/
def envValFail : Env :=
  { connectExn := none
    exec := fun cmd =>
      if cmd = "sudo docker exec nginx nginx -t" then .ok "syntax error on line 3" ""
      else .ok "" ""
    sftpWrite := fun _ _ => none, sftpRead := fun _ => .ok "", uuidHex := "aa" }

/-- A concrete adversarial environment: the move command fails with a stderr
text that itself contains the success marker "Successfully updated". -/
def envMoveLies : Env :=
  { connectExn := none
    exec := fun cmd =>
      if cmd = "sudo mv /tmp/app.conf.tmp_aa /etc/svc/app.conf" then
        .ok "" "Successfully updated"
      else .ok "" ""
    sftpWrite := fun _ _ => none, sftpRead := fun _ => .ok "", uuidHex := "aa" }

/-- A concrete environment in which establishing the SSH connection raises. -/
def envConnFail : Env :=
  { connectExn := some "boom", exec := fun _ => .ok "" "", sftpWrite := fun _ _ => none,
    sftpRead := fun _ => .ok "", uuidHex := "aa" }

/-- A concrete pending nginx update. -/
def demoAction : PendingAction :=
  { type := "nginx_config_update", file_path := "/etc/svc/app.conf",
    content := "server_name demo;" }

/-- A concrete table holding `demoAction` under id "X". -/
def demoTable : Table := fun k => if k = "X" then some demoAction else none

/-- A concrete pending change with an unhandled type. -/
def otherAction : PendingAction :=
  { type := "other_kind", file_path := "/etc/svc/app.conf", content := "server_name demo;" }

/-- A concrete table holding `otherAction` under id "Y". -/
def otherTable : Table := fun k => if k = "Y" then some otherAction else none

/-- Popping happens on every found entry: after `apply_pending_change` the id
is gone from the table, whatever the outcome. -/
theorem apply_table_self (env : Env) (table : Table) (action_id cname : String) :
    (apply_pending_change env table action_id cname).table action_id = none := by
  unfold apply_pending_change
  cases h : table action_id with
  | none => simpa using h
  | some a =>
    dsimp only
    split <;> (try split) <;> (try split) <;> (try split) <;> simp

/-- `apply_pending_change` never touches other ids' bindings. -/
theorem apply_table_of_ne (env : Env) (table : Table) (action_id cname : String)
    {k : String} (h : k ≠ action_id) :
    (apply_pending_change env table action_id cname).table k = table k := by
  unfold apply_pending_change
  cases ht : table action_id with
  | none => simp
  | some a =>
    dsimp only
    split <;> (try split) <;> (try split) <;> (try split) <;> simp [h]

/-- The not-found branch of `apply_pending_change`. -/
theorem apply_not_found (env : Env) (table : Table) (action_id cname : String)
    (h : table action_id = none) :
    apply_pending_change env table action_id cname =
      { output := "Error: No pending change found with ID '" ++ action_id ++ "'."
        table := table
        trace := [] } := by
  unfold apply_pending_change
  rw [h]

/-- The unknown-type branch of `apply_pending_change`. -/
theorem apply_unknown (env : Env) (table : Table) (action_id cname : String)
    (a : PendingAction) (h : table action_id = some a) (hk : a.type ≠ "nginx_config_update") :
    apply_pending_change env table action_id cname =
      { output := "Unknown or unhandled action type '" ++ a.type ++ "'."
        table := fun k => if k = action_id then none else table k
        trace := [] } := by
  unfold apply_pending_change
  rw [h]
  dsimp only
  rw [if_neg hk]

/-- The commit-failed branch of `apply_pending_change`: when the commit
result lacks the success marker, apply reports immediately. -/
theorem apply_commit_failed (env : Env) (table : Table) (action_id cname : String)
    (a : PendingAction) (h : table action_id = some a) (ht : a.type = "nginx_config_update")
    (hc : strContains (write_remote_file_content env a.file_path a.content).1
        "Successfully updated" = false) :
    apply_pending_change env table action_id cname =
      { output := "Failed to apply Nginx config update: " ++
          (write_remote_file_content env a.file_path a.content).1
        table := fun k => if k = action_id then none else table k
        trace := (write_remote_file_content env a.file_path a.content).2 } := by
  unfold apply_pending_change
  rw [h]
  dsimp only
  rw [if_pos ht, if_neg (by simp [hc])]

/-- The validation-failed branch of `apply_pending_change`: commit succeeded
but neither success phrase occurs in the check's result. -/
theorem apply_validation_failed (env : Env) (table : Table) (action_id cname : String)
    (a : PendingAction) (h : table action_id = some a) (ht : a.type = "nginx_config_update")
    (hc : strContains (write_remote_file_content env a.file_path a.content).1
        "Successfully updated" = true)
    (hp1 : strContains (run_remote_command env (validation_command cname) none).1
        "syntax is ok" = false)
    (hp2 : strContains (run_remote_command env (validation_command cname) none).1
        "test is successful" = false) :
    apply_pending_change env table action_id cname =
      { output := "Nginx config updated, but validation failed: " ++
          (run_remote_command env (validation_command cname) none).1 ++ "."
        table := fun k => if k = action_id then none else table k
        trace := (write_remote_file_content env a.file_path a.content).2 ++
          (run_remote_command env (validation_command cname) none).2 } := by
  unfold apply_pending_change
  rw [h]
  dsimp only
  rw [if_pos ht, if_pos (by simp [hc]), if_pos (by simp [hp1, hp2])]

/-- When the connection succeeds, a run's trace is exactly its one command. -/
theorem run_trace_eq (env : Env) (command : String) (working_dir : Option String)
    (hc : env.connectExn = none) :
    (run_remote_command env command working_dir).2 =
      [RemoteOp.exec (full_command working_dir command)] := by
  unfold run_remote_command
  rw [hc]
  dsimp only
  cases env.exec (full_command working_dir command) with
  | exn e => rfl
  | ok o e => dsimp only; split <;> rfl

/-- Every operation in a run's trace is the execution of its own command. -/
theorem run_trace_mem (env : Env) (command : String) (working_dir : Option String)
    {op : RemoteOp} (h : op ∈ (run_remote_command env command working_dir).2) :
    op = RemoteOp.exec (full_command working_dir command) := by
  unfold run_remote_command at h
  cases hc : env.connectExn with
  | some e => rw [hc] at h; simp at h
  | none =>
    rw [hc] at h
    dsimp only at h
    cases he : env.exec (full_command working_dir command) <;> rw [he] at h
    · dsimp only at h
      split at h <;> simpa using h
    · simpa using h

/-- Every operation in a commit's trace is the SFTP write of the temporary
path, the move command, or the cleanup command. -/
theorem write_trace_mem (env : Env) (remote_path content : String) {op : RemoteOp}
    (h : op ∈ (write_remote_file_content env remote_path content).2) :
    op = RemoteOp.sftpWrite (temp_remote_path env remote_path) content ∨
    op = RemoteOp.exec (move_command env remote_path) ∨
    op = RemoteOp.exec (cleanup_command env remote_path) := by
  unfold write_remote_file_content at h
  cases hc : env.connectExn with
  | some e => rw [hc] at h; simp at h
  | none =>
    rw [hc] at h
    dsimp only at h
    cases hw : env.sftpWrite (temp_remote_path env remote_path) content <;> rw [hw] at h
    · dsimp only at h
      split at h
      · simp only [List.mem_cons, List.mem_append] at h
        rcases h with (h | h) | h
        · exact Or.inl h
        · exact Or.inr (Or.inl (run_trace_mem _ _ _ h))
        · exact Or.inr (Or.inr (run_trace_mem _ _ _ h))
      · simp only [List.mem_cons, List.mem_append] at h
        rcases h with h | h
        · exact Or.inl h
        · exact Or.inr (Or.inl (run_trace_mem _ _ _ h))
    · exact Or.inl (by simpa using h)

/-- Equal appended lists have equal entries below both prefixes' lengths. -/
theorem getElem_eq_of_append_eq {p u q v : List Char} (h : p ++ u = q ++ v) (i : Nat)
    (hip : i < p.length) (hiq : i < q.length) : p[i]? = q[i]? := by
  have h2 := congrArg (fun l => l[i]?) h
  simpa [List.getElem?_append, hip, hiq] using h2

/-- The validation command is never the move command (they differ at
character 5). -/
theorem validation_command_ne_move_command (c : String) (env : Env) (rp : String) :
    validation_command c ≠ move_command env rp := by
  intro h
  have hd := congrArg String.data h
  simp only [validation_command, move_command, temp_remote_path, String.data_append,
    List.append_assoc] at hd
  have h5 := getElem_eq_of_append_eq hd 5 (by decide) (by decide)
  revert h5
  decide

/-- The validation command is never the cleanup command (they differ at
character 0). -/
theorem validation_command_ne_cleanup_command (c : String) (env : Env) (rp : String) :
    validation_command c ≠ cleanup_command env rp := by
  intro h
  have hd := congrArg String.data h
  simp only [validation_command, cleanup_command, temp_remote_path, String.data_append,
    List.append_assoc] at hd
  have h0 := getElem_eq_of_append_eq hd 0 (by decide) (by decide)
  revert h0
  decide

/-- The reload command is never the move command. -/
theorem reload_command_ne_move_command (c : String) (env : Env) (rp : String) :
    reload_command c ≠ move_command env rp := by
  intro h
  have hd := congrArg String.data h
  simp only [reload_command, move_command, temp_remote_path, String.data_append,
    List.append_assoc] at hd
  have h5 := getElem_eq_of_append_eq hd 5 (by decide) (by decide)
  revert h5
  decide

/-- The reload command is never the cleanup command. -/
theorem reload_command_ne_cleanup_command (c : String) (env : Env) (rp : String) :
    reload_command c ≠ cleanup_command env rp := by
  intro h
  have hd := congrArg String.data h
  simp only [reload_command, cleanup_command, temp_remote_path, String.data_append,
    List.append_assoc] at hd
  have h0 := getElem_eq_of_append_eq hd 0 (by decide) (by decide)
  revert h0
  decide

/-- The reload command is never the validation command (same prefix and
container name, different tails). -/
theorem reload_command_ne_validation_command (c : String) :
    reload_command c ≠ validation_command c := by
  intro h
  have hd := congrArg String.data h
  simp only [reload_command, validation_command, String.data_append, List.append_assoc] at hd
  have h1 := List.append_cancel_left hd
  have h2 := List.append_cancel_left h1
  revert h2
  decide

/-- The move command is never the cleanup command. -/
theorem move_command_ne_cleanup_command (env env' : Env) (rp rp' : String) :
    move_command env rp ≠ cleanup_command env' rp' := by
  intro h
  have hd := congrArg String.data h
  simp only [move_command, cleanup_command, temp_remote_path, String.data_append,
    List.append_assoc] at hd
  have h0 := getElem_eq_of_append_eq hd 0 (by decide) (by decide)
  revert h0
  decide

/-- A move-failure report is never a write-failure report (they differ at
character 6). -/
theorem moving_error_ne_writing_error (r q e : String) :
    "Error moving temporary file: " ++ r ≠ "Error writing file " ++ q ++ ": " ++ e := by
  intro h
  have hd := congrArg String.data h
  simp only [String.data_append, List.append_assoc] at hd
  have h6 := getElem_eq_of_append_eq hd 6 (by decide) (by decide)
  revert h6
  decide

/-- Distinct uuid suffixes give distinct temporary paths for one target. -/
theorem temp_remote_path_injective_suffix (env env' : Env) (rp : String)
    (h : env.uuidHex ≠ env'.uuidHex) :
    temp_remote_path env rp ≠ temp_remote_path env' rp := by
  intro he
  apply h
  have hd := congrArg String.data he
  simp only [temp_remote_path, String.data_append, List.append_assoc] at hd
  have h1 := List.append_cancel_left hd
  have h2 := List.append_cancel_left h1
  have h3 := List.append_cancel_left h2
  exact String.ext h3

/-- The move-failed branch of `_write_remote_file_content`. -/
theorem write_move_failed (env : Env) (rp c : String)
    (hc : env.connectExn = none)
    (hw : env.sftpWrite (temp_remote_path env rp) c = none)
    (hm : strContains (run_remote_command env (move_command env rp) none).1 "Error" = true) :
    write_remote_file_content env rp c =
      ("Error moving temporary file: " ++ (run_remote_command env (move_command env rp) none).1,
       RemoteOp.sftpWrite (temp_remote_path env rp) c ::
         (run_remote_command env (move_command env rp) none).2 ++
         (run_remote_command env (cleanup_command env rp) none).2) := by
  unfold write_remote_file_content
  rw [hc]
  dsimp only
  rw [hw]
  dsimp only
  rw [if_pos (by simp [hm])]

/-- The successful branch of `_write_remote_file_content`. -/
theorem write_move_ok (env : Env) (rp c : String)
    (hc : env.connectExn = none)
    (hw : env.sftpWrite (temp_remote_path env rp) c = none)
    (hm : strContains (run_remote_command env (move_command env rp) none).1 "Error" = false) :
    write_remote_file_content env rp c =
      ("Successfully updated " ++ rp ++ ".",
       RemoteOp.sftpWrite (temp_remote_path env rp) c ::
         (run_remote_command env (move_command env rp) none).2) := by
  unfold write_remote_file_content
  rw [hc]
  dsimp only
  rw [hw]
  dsimp only
  rw [if_neg (by simp [hm])]

/-- The string `_write_remote_file_content` returns does not depend on how
the cleanup command fares: two environments differing only there agree. -/
theorem write_ignores_cleanup_outcome (env env₂ : Env) (rp c : String)
    (h1 : env₂.connectExn = env.connectExn) (h2 : env₂.sftpWrite = env.sftpWrite)
    (h3 : env₂.uuidHex = env.uuidHex)
    (h4 : ∀ cmd, cmd ≠ cleanup_command env rp → env₂.exec cmd = env.exec cmd) :
    (write_remote_file_content env₂ rp c).1 = (write_remote_file_content env rp c).1 := by
  have htmp : temp_remote_path env₂ rp = temp_remote_path env rp := by
    simp [temp_remote_path, h3]
  have hmv : move_command env₂ rp = move_command env rp := by
    simp [move_command, htmp]
  have hrun : run_remote_command env₂ (move_command env₂ rp) none =
      run_remote_command env (move_command env rp) none := by
    rw [hmv]
    unfold run_remote_command
    rw [h1]
    cases env.connectExn with
    | some e => rfl
    | none =>
      dsimp only [full_command]
      rw [h4 _ (move_command_ne_cleanup_command env env rp rp)]
  unfold write_remote_file_content
  rw [h1, htmp, h2]
  cases env.connectExn with
  | some e => rfl
  | none =>
    dsimp only
    cases env.sftpWrite (temp_remote_path env rp) c with
    | some e => rfl
    | none =>
      dsimp only
      rw [hrun]
      cases hE : strContains (run_remote_command env (move_command env rp) none).1 "Error" <;>
        simp [hE]

/-- The normal-execution shape of `_run_remote_command`. -/
theorem run_ok (env : Env) (command : String) (working_dir : Option String) (out err : String)
    (hc : env.connectExn = none)
    (he : env.exec (full_command working_dir command) = .ok out err) :
    run_remote_command env command working_dir =
      (if pyStrip err != "" && !(strContains (pyStrip err) "sudo") then
        "Error executing command:\nSTDOUT:\n" ++ pyStrip out ++ "\nSTDERR:\n" ++ pyStrip err
       else if pyStrip out != "" then pyStrip out else pyStrip err,
       [RemoteOp.exec (full_command working_dir command)]) := by
  unfold run_remote_command
  rw [hc]
  dsimp only
  rw [he]
  dsimp only
  split <;> rfl

/-- `strContains` decides the character-list infix relation. -/
theorem strContains_iff {s pat : String} : strContains s pat = true ↔ pat.data <:+: s.data := by
  unfold strContains
  exact decide_eq_true_iff

/-- A run whose stripped stderr is non-empty and free of "sudo" returns the
error report embedding both channels. -/
theorem run_failed_eq (env : Env) (command : String) (working_dir : Option String)
    (out err : String) (hc : env.connectExn = none)
    (he : env.exec (full_command working_dir command) = .ok out err)
    (h1 : pyStrip err ≠ "") (h2 : strContains (pyStrip err) "sudo" = false) :
    (run_remote_command env command working_dir).1 =
      "Error executing command:\nSTDOUT:\n" ++ pyStrip out ++ "\nSTDERR:\n" ++ pyStrip err := by
  rw [run_ok env command working_dir out err hc he]
  simp [h1, h2]

/-- A run whose stripped stderr is empty or mentions "sudo" returns stdout
when non-empty, otherwise stderr. -/
theorem run_passed_eq (env : Env) (command : String) (working_dir : Option String)
    (out err : String) (hc : env.connectExn = none)
    (he : env.exec (full_command working_dir command) = .ok out err)
    (h : pyStrip err = "" ∨ strContains (pyStrip err) "sudo" = true) :
    (run_remote_command env command working_dir).1 =
      if pyStrip out = "" then pyStrip err else pyStrip out := by
  rw [run_ok env command working_dir out err hc he]
  rcases h with h | h
  · simp [h]
  · rw [if_neg (by simp [h])]
    by_cases ho : pyStrip out = ""
    · simp [ho]
    · simp [ho]

/-- Helper for the short-circuit claims: neither the validation command nor
the reload command ever occurs in a commit's trace. -/
theorem commit_trace_no_validation_no_reload (env : Env) (rp c cname : String) :
    RemoteOp.exec (validation_command cname) ∉ (write_remote_file_content env rp c).2 ∧
    RemoteOp.exec (reload_command cname) ∉ (write_remote_file_content env rp c).2 := by
  constructor
  · intro hmem
    rcases write_trace_mem env rp c hmem with h | h | h
    · exact absurd h (by simp)
    · exact validation_command_ne_move_command cname env rp (by injection h)
    · exact validation_command_ne_cleanup_command cname env rp (by injection h)
  · intro hmem
    rcases write_trace_mem env rp c hmem with h | h | h
    · exact absurd h (by simp)
    · exact reload_command_ne_move_command cname env rp (by injection h)
    · exact reload_command_ne_cleanup_command cname env rp (by injection h)

/-- C1: apply is a destructive read: for every id, `apply_pending_change`
removes the entry before executing any stage, regardless of the outcome, so
a second call with the same id (under any environment) returns the not-found
error naming the id, changes nothing and issues no remote operation. -/
theorem apply_destructive_read (env env' : Env) (table : Table)
    (action_id cname cname' : String) :
    (apply_pending_change env table action_id cname).table action_id = none ∧
    apply_pending_change env' (apply_pending_change env table action_id cname).table
        action_id cname' =
      { output := "Error: No pending change found with ID '" ++ action_id ++ "'."
        table := (apply_pending_change env table action_id cname).table
        trace := [] } :=
  ⟨apply_table_self env table action_id cname,
   apply_not_found env' _ action_id cname' (apply_table_self env table action_id cname)⟩

/-- C2 counterexample: the commit (remote file replacement) fails — it
returns the move-failed error string — yet the validation command is issued,
because the embedded move output smuggles in the marker "Successfully
updated".  So "if the commit fails, the validation command is never issued"
is false as stated. -/
theorem stage_short_circuit_cex :
    (write_remote_file_content envMoveLies "/etc/svc/app.conf" "server_name demo;").1 =
      "Error moving temporary file: Error executing command:\nSTDOUT:\n\nSTDERR:\nSuccessfully updated" ∧
    RemoteOp.exec (validation_command "nginx") ∈
      (apply_pending_change envMoveLies demoTable "X" "nginx").trace := by
  constructor
  · set_option maxRecDepth 8192 in decide
  · set_option maxRecDepth 8192 in decide

/-- C2 (amended): `apply_pending_change` judges the commit by the substring
"Successfully updated" in the replacer's result.  When that marker is absent
(every commit failure whose embedded move output does not itself contain the
marker), neither the validation command nor the reload command is issued and
the commit error is returned immediately; when the commit is judged
successful and validation fails, the reload command is never issued and the
validation error is returned immediately. -/
theorem stage_short_circuit_amended (env : Env) (table : Table) (action_id cname : String)
    (a : PendingAction) (h : table action_id = some a)
    (ht : a.type = "nginx_config_update") :
    (strContains (write_remote_file_content env a.file_path a.content).1
        "Successfully updated" = false →
      (apply_pending_change env table action_id cname).output =
        "Failed to apply Nginx config update: " ++
          (write_remote_file_content env a.file_path a.content).1 ∧
      RemoteOp.exec (validation_command cname) ∉
        (apply_pending_change env table action_id cname).trace ∧
      RemoteOp.exec (reload_command cname) ∉
        (apply_pending_change env table action_id cname).trace) ∧
    (strContains (write_remote_file_content env a.file_path a.content).1
        "Successfully updated" = true →
     strContains (run_remote_command env (validation_command cname) none).1
        "syntax is ok" = false →
     strContains (run_remote_command env (validation_command cname) none).1
        "test is successful" = false →
      (apply_pending_change env table action_id cname).output =
        "Nginx config updated, but validation failed: " ++
          (run_remote_command env (validation_command cname) none).1 ++ "." ∧
      RemoteOp.exec (reload_command cname) ∉
        (apply_pending_change env table action_id cname).trace) := by
  constructor
  · intro hcf
    rw [apply_commit_failed env table action_id cname a h ht hcf]
    exact ⟨rfl, (commit_trace_no_validation_no_reload env a.file_path a.content cname).1,
      (commit_trace_no_validation_no_reload env a.file_path a.content cname).2⟩
  · intro hcs hp1 hp2
    rw [apply_validation_failed env table action_id cname a h ht hcs hp1 hp2]
    refine ⟨rfl, ?_⟩
    intro hmem
    simp only [List.mem_append] at hmem
    rcases hmem with hmem | hmem
    · exact (commit_trace_no_validation_no_reload env a.file_path a.content cname).2 hmem
    · exact reload_command_ne_validation_command cname
        (by injection run_trace_mem env (validation_command cname) none hmem)

/-- C2 witness: the amended short-circuit statement instantiated at the
concrete adversarial environment and table. -/
theorem stage_short_circuit_amended_witness :
    demoTable "X" = some demoAction ∧
    demoAction.type = "nginx_config_update" ∧
    ((strContains (write_remote_file_content envMoveLies demoAction.file_path
        demoAction.content).1 "Successfully updated" = false →
      (apply_pending_change envMoveLies demoTable "X" "nginx").output =
        "Failed to apply Nginx config update: " ++
          (write_remote_file_content envMoveLies demoAction.file_path demoAction.content).1 ∧
      RemoteOp.exec (validation_command "nginx") ∉
        (apply_pending_change envMoveLies demoTable "X" "nginx").trace ∧
      RemoteOp.exec (reload_command "nginx") ∉
        (apply_pending_change envMoveLies demoTable "X" "nginx").trace) ∧
    (strContains (write_remote_file_content envMoveLies demoAction.file_path
        demoAction.content).1 "Successfully updated" = true →
     strContains (run_remote_command envMoveLies (validation_command "nginx") none).1
        "syntax is ok" = false →
     strContains (run_remote_command envMoveLies (validation_command "nginx") none).1
        "test is successful" = false →
      (apply_pending_change envMoveLies demoTable "X" "nginx").output =
        "Nginx config updated, but validation failed: " ++
          (run_remote_command envMoveLies (validation_command "nginx") none).1 ++ "." ∧
      RemoteOp.exec (reload_command "nginx") ∉
        (apply_pending_change envMoveLies demoTable "X" "nginx").trace)) :=
  ⟨rfl, rfl, stage_short_circuit_amended envMoveLies demoTable "X" "nginx" demoAction rfl rfl⟩

/-- C3: the atomic replacement algorithm of `_write_remote_file_content`:
the temporary path lives in /tmp and is named from the target's basename
plus the per-call uuid suffix (distinct suffixes give distinct paths); the
content is written there over SFTP and moved onto the target with a single
elevated move command; if the move fails, a best-effort deletion of the
temporary file is attempted whose outcome cannot influence the returned
string, and the move-failed error is distinct from every write-failed
error. -/
theorem atomic_replace_algorithm (env : Env) (remote_path content : String)
    (hc : env.connectExn = none)
    (hw : env.sftpWrite (temp_remote_path env remote_path) content = none) :
    temp_remote_path env remote_path =
      "/tmp/" ++ basename remote_path ++ ".tmp_" ++ env.uuidHex ∧
    move_command env remote_path =
      "sudo mv " ++ temp_remote_path env remote_path ++ " " ++ remote_path ∧
    RemoteOp.sftpWrite (temp_remote_path env remote_path) content ∈
      (write_remote_file_content env remote_path content).2 ∧
    RemoteOp.exec (move_command env remote_path) ∈
      (write_remote_file_content env remote_path content).2 ∧
    (∀ env' : Env, env'.uuidHex ≠ env.uuidHex →
      temp_remote_path env' remote_path ≠ temp_remote_path env remote_path) ∧
    (strContains (run_remote_command env (move_command env remote_path) none).1 "Error" = true →
      (write_remote_file_content env remote_path content).1 =
        "Error moving temporary file: " ++
          (run_remote_command env (move_command env remote_path) none).1 ∧
      RemoteOp.exec (cleanup_command env remote_path) ∈
        (write_remote_file_content env remote_path content).2) ∧
    (∀ env₂ : Env, env₂.connectExn = env.connectExn → env₂.sftpWrite = env.sftpWrite →
      env₂.uuidHex = env.uuidHex →
      (∀ cmd, cmd ≠ cleanup_command env remote_path → env₂.exec cmd = env.exec cmd) →
      (write_remote_file_content env₂ remote_path content).1 =
        (write_remote_file_content env remote_path content).1) ∧
    (∀ r q e : String,
      "Error moving temporary file: " ++ r ≠ "Error writing file " ++ q ++ ": " ++ e) := by
  refine ⟨rfl, rfl, ?_, ?_, ?_, ?_, ?_, moving_error_ne_writing_error⟩
  · cases hm : strContains (run_remote_command env (move_command env remote_path) none).1 "Error"
    · rw [write_move_ok env remote_path content hc hw hm]
      simp
    · rw [write_move_failed env remote_path content hc hw hm]
      simp
  · cases hm : strContains (run_remote_command env (move_command env remote_path) none).1 "Error"
    · rw [write_move_ok env remote_path content hc hw hm,
        run_trace_eq env (move_command env remote_path) none hc]
      simp [full_command]
    · rw [write_move_failed env remote_path content hc hw hm,
        run_trace_eq env (move_command env remote_path) none hc]
      simp [full_command]
  · exact fun env' hne => temp_remote_path_injective_suffix env' env remote_path hne
  · intro hm
    rw [write_move_failed env remote_path content hc hw hm,
      run_trace_eq env (cleanup_command env remote_path) none hc]
    refine ⟨rfl, ?_⟩
    simp [full_command]
  · exact fun env₂ h1 h2 h3 h4 =>
      write_ignores_cleanup_outcome env env₂ remote_path content h1 h2 h3 h4

/-- C3 witness: the atomic replacement statement at the benign concrete
environment. -/
theorem atomic_replace_algorithm_witness :
    envNull.connectExn = none ∧
    envNull.sftpWrite (temp_remote_path envNull "/etc/svc/app.conf") "server_name demo;" =
      none ∧
    (temp_remote_path envNull "/etc/svc/app.conf" =
      "/tmp/" ++ basename "/etc/svc/app.conf" ++ ".tmp_" ++ envNull.uuidHex ∧
    move_command envNull "/etc/svc/app.conf" =
      "sudo mv " ++ temp_remote_path envNull "/etc/svc/app.conf" ++ " " ++ "/etc/svc/app.conf" ∧
    RemoteOp.sftpWrite (temp_remote_path envNull "/etc/svc/app.conf") "server_name demo;" ∈
      (write_remote_file_content envNull "/etc/svc/app.conf" "server_name demo;").2 ∧
    RemoteOp.exec (move_command envNull "/etc/svc/app.conf") ∈
      (write_remote_file_content envNull "/etc/svc/app.conf" "server_name demo;").2 ∧
    (∀ env' : Env, env'.uuidHex ≠ envNull.uuidHex →
      temp_remote_path env' "/etc/svc/app.conf" ≠ temp_remote_path envNull "/etc/svc/app.conf") ∧
    (strContains (run_remote_command envNull (move_command envNull "/etc/svc/app.conf") none).1
        "Error" = true →
      (write_remote_file_content envNull "/etc/svc/app.conf" "server_name demo;").1 =
        "Error moving temporary file: " ++
          (run_remote_command envNull (move_command envNull "/etc/svc/app.conf") none).1 ∧
      RemoteOp.exec (cleanup_command envNull "/etc/svc/app.conf") ∈
        (write_remote_file_content envNull "/etc/svc/app.conf" "server_name demo;").2) ∧
    (∀ env₂ : Env, env₂.connectExn = envNull.connectExn → env₂.sftpWrite = envNull.sftpWrite →
      env₂.uuidHex = envNull.uuidHex →
      (∀ cmd, cmd ≠ cleanup_command envNull "/etc/svc/app.conf" →
        env₂.exec cmd = envNull.exec cmd) →
      (write_remote_file_content env₂ "/etc/svc/app.conf" "server_name demo;").1 =
        (write_remote_file_content envNull "/etc/svc/app.conf" "server_name demo;").1) ∧
    (∀ r q e : String,
      "Error moving temporary file: " ++ r ≠ "Error writing file " ++ q ++ ": " ++ e)) :=
  ⟨rfl, rfl, atomic_replace_algorithm envNull "/etc/svc/app.conf" "server_name demo;" rfl rfl⟩

/-- C4: after a successful commit, validation is judged by the fixed success
phrases; when neither occurs in the check's result the validation-failed
message is returned at once, the trace is exactly the commit operations plus
the one validation command (in particular the reload command was never
issued and nothing rolled the committed file back). -/
theorem validation_judgment_no_rollback (env : Env) (table : Table) (action_id cname : String)
    (a : PendingAction) (h : table action_id = some a)
    (ht : a.type = "nginx_config_update")
    (hcs : strContains (write_remote_file_content env a.file_path a.content).1
        "Successfully updated" = true)
    (hp1 : strContains (run_remote_command env (validation_command cname) none).1
        "syntax is ok" = false)
    (hp2 : strContains (run_remote_command env (validation_command cname) none).1
        "test is successful" = false) :
    (apply_pending_change env table action_id cname).output =
      "Nginx config updated, but validation failed: " ++
        (run_remote_command env (validation_command cname) none).1 ++ "." ∧
    (apply_pending_change env table action_id cname).trace =
      (write_remote_file_content env a.file_path a.content).2 ++
        (run_remote_command env (validation_command cname) none).2 ∧
    (∀ op ∈ (run_remote_command env (validation_command cname) none).2,
      op = RemoteOp.exec (validation_command cname)) ∧
    RemoteOp.exec (reload_command cname) ∉
      (apply_pending_change env table action_id cname).trace := by
  have hb := apply_validation_failed env table action_id cname a h ht hcs hp1 hp2
  rw [hb]
  refine ⟨rfl, rfl, fun op hop => run_trace_mem env (validation_command cname) none hop, ?_⟩
  intro hmem
  simp only [List.mem_append] at hmem
  rcases hmem with hmem | hmem
  · exact (commit_trace_no_validation_no_reload env a.file_path a.content cname).2 hmem
  · exact reload_command_ne_validation_command cname
      (by injection run_trace_mem env (validation_command cname) none hmem)

/-- C4 witness: the validation judgment statement at the concrete
environment whose syntax check reports an error. -/
theorem validation_judgment_no_rollback_witness :
    demoTable "X" = some demoAction ∧
    demoAction.type = "nginx_config_update" ∧
    strContains (write_remote_file_content envValFail demoAction.file_path
      demoAction.content).1 "Successfully updated" = true ∧
    strContains (run_remote_command envValFail (validation_command "nginx") none).1
      "syntax is ok" = false ∧
    strContains (run_remote_command envValFail (validation_command "nginx") none).1
      "test is successful" = false ∧
    ((apply_pending_change envValFail demoTable "X" "nginx").output =
      "Nginx config updated, but validation failed: " ++
        (run_remote_command envValFail (validation_command "nginx") none).1 ++ "." ∧
    (apply_pending_change envValFail demoTable "X" "nginx").trace =
      (write_remote_file_content envValFail demoAction.file_path demoAction.content).2 ++
        (run_remote_command envValFail (validation_command "nginx") none).2 ∧
    (∀ op ∈ (run_remote_command envValFail (validation_command "nginx") none).2,
      op = RemoteOp.exec (validation_command "nginx")) ∧
    RemoteOp.exec (reload_command "nginx") ∉
      (apply_pending_change envValFail demoTable "X" "nginx").trace) :=
  ⟨rfl, rfl, by set_option maxRecDepth 8192 in decide,
   by set_option maxRecDepth 8192 in decide, by set_option maxRecDepth 8192 in decide,
   validation_judgment_no_rollback envValFail demoTable "X" "nginx" demoAction rfl rfl
     (by set_option maxRecDepth 8192 in decide) (by set_option maxRecDepth 8192 in decide)
     (by set_option maxRecDepth 8192 in decide)⟩

/-- C5: `_run_remote_command` treats a normally executed command as failed
exactly when the stripped stderr is non-empty and does not contain "sudo":
in that case it returns the error report, otherwise the stdout text when
non-empty and the stderr text otherwise. -/
theorem stderr_failure_heuristic (env : Env) (command : String) (working_dir : Option String)
    (out err : String) (hc : env.connectExn = none)
    (he : env.exec (full_command working_dir command) = .ok out err) :
    (pyStrip err ≠ "" → strContains (pyStrip err) "sudo" = false →
      (run_remote_command env command working_dir).1 =
        "Error executing command:\nSTDOUT:\n" ++ pyStrip out ++ "\nSTDERR:\n" ++ pyStrip err) ∧
    (pyStrip err = "" ∨ strContains (pyStrip err) "sudo" = true →
      (run_remote_command env command working_dir).1 =
        if pyStrip out = "" then pyStrip err else pyStrip out) :=
  ⟨run_failed_eq env command working_dir out err hc he,
   run_passed_eq env command working_dir out err hc he⟩

/-- C5 witness: the heuristic statement at the concrete environment whose
commands produce non-empty stderr without "sudo". -/
theorem stderr_failure_heuristic_witness :
    envErr.connectExn = none ∧
    envErr.exec (full_command none "ls -l /opt") = ExecOutcome.ok "some output" "boom failure" ∧
    ((pyStrip "boom failure" ≠ "" → strContains (pyStrip "boom failure") "sudo" = false →
      (run_remote_command envErr "ls -l /opt" none).1 =
        "Error executing command:\nSTDOUT:\n" ++ pyStrip "some output" ++ "\nSTDERR:\n" ++
          pyStrip "boom failure") ∧
    (pyStrip "boom failure" = "" ∨ strContains (pyStrip "boom failure") "sudo" = true →
      (run_remote_command envErr "ls -l /opt" none).1 =
        if pyStrip "some output" = "" then pyStrip "boom failure"
        else pyStrip "some output")) :=
  ⟨rfl, rfl, stderr_failure_heuristic envErr "ls -l /opt" none "some output" "boom failure"
    rfl rfl⟩

/-- C6: propose is pure local bookkeeping: it performs no remote operation,
returns the confirmation string naming the id, stores the pending change
under the id, leaves every other binding unchanged, and the stored entry
survives any apply of a different id. -/
theorem propose_pure_bookkeeping (table : Table) (action_id proposed_content config_path : String) :
    (propose_nginx_config_update table action_id proposed_content config_path).trace = [] ∧
    (propose_nginx_config_update table action_id proposed_content config_path).output =
      "Proposed Nginx config update stored. To apply, say: 'Apply change " ++ action_id ++ "'." ∧
    (propose_nginx_config_update table action_id proposed_content config_path).table action_id =
      some { type := "nginx_config_update", file_path := config_path,
             content := proposed_content } ∧
    (∀ k, k ≠ action_id →
      (propose_nginx_config_update table action_id proposed_content config_path).table k =
        table k) ∧
    (∀ (env : Env) (id2 c2 : String), id2 ≠ action_id →
      (apply_pending_change env
          (propose_nginx_config_update table action_id proposed_content config_path).table
          id2 c2).table action_id =
        (propose_nginx_config_update table action_id proposed_content config_path).table
          action_id) := by
  refine ⟨rfl, rfl, by simp [propose_nginx_config_update], ?_, ?_⟩
  · intro k hk
    simp [propose_nginx_config_update, hk]
  · intro env id2 c2 h12
    exact apply_table_of_ne env _ id2 c2 (Ne.symm h12)

/-- C7 counterexample: a call to propose does not leave the observable state
unchanged — the pending-change table gains an entry under the fresh id. -/
theorem propose_mutates_state_cex :
    (propose_nginx_config_update Table.empty "id-1" "server_name demo;"
        "/opt/iot-stack/volumes/nginx/conf/app.conf").table "id-1" ≠
      Table.empty "id-1" := by decide

/-- C7 (amended): propose performs no remote operation, but it does mutate
the pending-change table: each call adds one entry under its fresh id, and
two calls with the same content and path but distinct generated ids leave
two distinct entries rather than being idempotent. -/
theorem propose_local_mutation (table : Table) (id1 id2 proposed_content config_path : String)
    (h : id1 ≠ id2) :
    (propose_nginx_config_update table id1 proposed_content config_path).trace = [] ∧
    (propose_nginx_config_update table id1 proposed_content config_path).table id1 =
      some { type := "nginx_config_update", file_path := config_path,
             content := proposed_content } ∧
    (propose_nginx_config_update
        (propose_nginx_config_update table id1 proposed_content config_path).table
        id2 proposed_content config_path).table id1 =
      some { type := "nginx_config_update", file_path := config_path,
             content := proposed_content } ∧
    (propose_nginx_config_update
        (propose_nginx_config_update table id1 proposed_content config_path).table
        id2 proposed_content config_path).table id2 =
      some { type := "nginx_config_update", file_path := config_path,
             content := proposed_content } := by
  refine ⟨rfl, by simp [propose_nginx_config_update], ?_, by simp [propose_nginx_config_update]⟩
  simp [propose_nginx_config_update, h]

/-- C7 witness: two proposals with the same arguments but distinct fresh ids
leave two entries. -/
theorem propose_local_mutation_witness :
    (("id-1" : String) ≠ "id-2") ∧
    ((propose_nginx_config_update Table.empty "id-1" "server_name demo;"
        "/opt/iot-stack/volumes/nginx/conf/app.conf").trace = [] ∧
    (propose_nginx_config_update Table.empty "id-1" "server_name demo;"
        "/opt/iot-stack/volumes/nginx/conf/app.conf").table "id-1" =
      some { type := "nginx_config_update",
             file_path := "/opt/iot-stack/volumes/nginx/conf/app.conf",
             content := "server_name demo;" } ∧
    (propose_nginx_config_update
        (propose_nginx_config_update Table.empty "id-1" "server_name demo;"
          "/opt/iot-stack/volumes/nginx/conf/app.conf").table
        "id-2" "server_name demo;" "/opt/iot-stack/volumes/nginx/conf/app.conf").table "id-1" =
      some { type := "nginx_config_update",
             file_path := "/opt/iot-stack/volumes/nginx/conf/app.conf",
             content := "server_name demo;" } ∧
    (propose_nginx_config_update
        (propose_nginx_config_update Table.empty "id-1" "server_name demo;"
          "/opt/iot-stack/volumes/nginx/conf/app.conf").table
        "id-2" "server_name demo;" "/opt/iot-stack/volumes/nginx/conf/app.conf").table "id-2" =
      some { type := "nginx_config_update",
             file_path := "/opt/iot-stack/volumes/nginx/conf/app.conf",
             content := "server_name demo;" }) :=
  ⟨by decide,
   propose_local_mutation Table.empty "id-1" "id-2" "server_name demo;"
     "/opt/iot-stack/volumes/nginx/conf/app.conf" (by decide)⟩

/-- C8: a pending change whose stored type is not "nginx_config_update"
makes `apply_pending_change` fail with the unsupported-kind message and
execute no stage: the remote trace is empty. -/
theorem apply_unknown_kind_no_stage (env : Env) (table : Table) (action_id cname : String)
    (a : PendingAction) (h : table action_id = some a)
    (hk : a.type ≠ "nginx_config_update") :
    (apply_pending_change env table action_id cname).output =
      "Unknown or unhandled action type '" ++ a.type ++ "'." ∧
    (apply_pending_change env table action_id cname).trace = [] := by
  rw [apply_unknown env table action_id cname a h hk]
  exact ⟨rfl, rfl⟩

/-- C8 witness: the unknown-kind statement at a concrete table holding an
entry of type "other_kind". -/
theorem apply_unknown_kind_no_stage_witness :
    otherTable "Y" = some otherAction ∧
    otherAction.type ≠ "nginx_config_update" ∧
    ((apply_pending_change envNull otherTable "Y" "nginx").output =
      "Unknown or unhandled action type '" ++ otherAction.type ++ "'." ∧
     (apply_pending_change envNull otherTable "Y" "nginx").trace = []) :=
  ⟨rfl, by decide, apply_unknown_kind_no_stage envNull otherTable "Y" "nginx" otherAction rfl
    (by decide)⟩

/-- C9: `_run_remote_command` collapses both channels into one string: a
command not judged failed returns the stripped stdout when non-empty and the
stripped stderr otherwise, while a failed command returns the report that
embeds both texts, so every substring of the stripped stderr (validation
success phrases included) is a substring of the returned string. -/
theorem run_channel_collapse (env : Env) (command : String) (working_dir : Option String)
    (out err : String) (hc : env.connectExn = none)
    (he : env.exec (full_command working_dir command) = .ok out err) :
    (pyStrip err = "" ∨ strContains (pyStrip err) "sudo" = true →
      (run_remote_command env command working_dir).1 =
        if pyStrip out = "" then pyStrip err else pyStrip out) ∧
    (pyStrip err ≠ "" → strContains (pyStrip err) "sudo" = false →
      strContains (run_remote_command env command working_dir).1 (pyStrip err) = true ∧
      strContains (run_remote_command env command working_dir).1 (pyStrip out) = true ∧
      (∀ s : String, strContains (pyStrip err) s = true →
        strContains (run_remote_command env command working_dir).1 s = true)) := by
  refine ⟨run_passed_eq env command working_dir out err hc he, ?_⟩
  intro h1 h2
  have hr : (run_remote_command env command working_dir).1 =
      "Error executing command:\nSTDOUT:\n" ++ pyStrip out ++ "\nSTDERR:\n" ++ pyStrip err :=
    run_failed_eq env command working_dir out err hc he h1 h2
  rw [hr]
  have herr : (pyStrip err).data <:+:
      ("Error executing command:\nSTDOUT:\n" ++ pyStrip out ++ "\nSTDERR:\n" ++ pyStrip err).data := by
    refine ⟨("Error executing command:\nSTDOUT:\n" ++ pyStrip out ++ "\nSTDERR:\n").data, [], ?_⟩
    simp [String.data_append]
  refine ⟨strContains_iff.mpr herr, strContains_iff.mpr ?_, fun s hs => strContains_iff.mpr ?_⟩
  · refine ⟨("Error executing command:\nSTDOUT:\n").data,
      ("\nSTDERR:\n" ++ pyStrip err).data, ?_⟩
    simp [String.data_append]
  · exact (strContains_iff.mp hs).trans herr

/-- C9 witness: the channel-collapse statement at the concrete failing
environment. -/
theorem run_channel_collapse_witness :
    envErr.connectExn = none ∧
    envErr.exec (full_command none "ls -l /opt") = ExecOutcome.ok "some output" "boom failure" ∧
    ((pyStrip "boom failure" = "" ∨ strContains (pyStrip "boom failure") "sudo" = true →
      (run_remote_command envErr "ls -l /opt" none).1 =
        if pyStrip "some output" = "" then pyStrip "boom failure" else pyStrip "some output") ∧
    (pyStrip "boom failure" ≠ "" → strContains (pyStrip "boom failure") "sudo" = false →
      strContains (run_remote_command envErr "ls -l /opt" none).1 (pyStrip "boom failure") = true ∧
      strContains (run_remote_command envErr "ls -l /opt" none).1 (pyStrip "some output") = true ∧
      (∀ s : String, strContains (pyStrip "boom failure") s = true →
        strContains (run_remote_command envErr "ls -l /opt" none).1 s = true))) :=
  ⟨rfl, rfl, run_channel_collapse envErr "ls -l /opt" none "some output" "boom failure" rfl rfl⟩

/-- C10: no modelled failure escapes as an exception: a failing connection,
a raising `exec_command`, a raising SFTP read and a raising SFTP write each
make the helper return its descriptive error string, and the tool methods
built on them (here: apply on a proposed change under a failing connection)
still return a plain result string. -/
theorem helpers_never_raise (m cmd p c u : String) (wd : Option String)
    (ex : String → ExecOutcome) (sw : String → String → Option String)
    (sr : String → ReadOutcome) :
    (run_remote_command ⟨some m, ex, sw, sr, u⟩ cmd wd).1 =
      "Failed to run command '" ++ cmd ++ "': Failed to establish SSH connection: " ++ m ∧
    (run_remote_command ⟨none, fun _ => .exn m, sw, sr, u⟩ cmd wd).1 =
      "Failed to run command '" ++ full_command wd cmd ++ "': " ++ m ∧
    read_remote_file_content ⟨some m, ex, sw, sr, u⟩ p =
      "Error reading file '" ++ p ++ "': Failed to establish SSH connection: " ++ m ∧
    read_remote_file_content ⟨none, ex, sw, fun _ => .exn m, u⟩ p =
      "Error reading file '" ++ p ++ "': " ++ m ∧
    (write_remote_file_content ⟨some m, ex, sw, sr, u⟩ p c).1 =
      "Error writing file " ++ p ++ ": Failed to establish SSH connection: " ++ m ∧
    (write_remote_file_content ⟨none, ex, fun _ _ => some m, sr, u⟩ p c).1 =
      "Error writing file " ++ p ++ ": " ++ m ∧
    (apply_pending_change envConnFail
        (propose_nginx_config_update Table.empty "X" "server_name demo;"
          "/opt/iot-stack/volumes/nginx/conf/app.conf").table "X" "nginx").output =
      "Failed to apply Nginx config update: Error writing file /opt/iot-stack/volumes/nginx/conf/app.conf: Failed to establish SSH connection: boom" := by
  refine ⟨rfl, rfl, rfl, rfl, rfl, rfl, ?_⟩
  set_option maxRecDepth 4096 in decide

end SSHServerManager
